import Mathlib

/-!
# Verification of the ollama-AI-Observer gateway (src/app/src-tauri/src/lib.rs)

Shallow embedding of the three risk-bearing components of the gateway:

* `exec_handler` — the sandboxed command-execution endpoint: validation of the
  raw command line against the allow-list policy and the resulting SSE event
  stream (lines 116–212 of `lib.rs`);
* `proxy_handler` — the reverse proxy that forwards inbound requests to the
  configured upstream (lines 214–276), together with the configuration store
  commands `set_ollama_url` / `get_ollama_url` (lines 40–60);
* `check_ollama_servers` — the concurrent liveness prober (lines 62–102).

OS-level nondeterminism (what the spawned process prints, whether the spawn or
wait syscalls fail, what the network answers) is made explicit as an
environment argument; the Rust control flow itself is translated directly.
-/

/-! ## Whitespace splitting (Rust `str::split_whitespace`)

Rust splits on `char::is_whitespace`, i.e. the Unicode `White_Space` property,
and discards empty substrings. -/

/-- Rust `char::is_whitespace`: the Unicode `White_Space` property. -/
def isRustWhitespace (c : Char) : Bool :=
  (0x09 ≤ c.toNat && c.toNat ≤ 0x0D) || c.toNat == 0x20 || c.toNat == 0x85 ||
  c.toNat == 0xA0 || c.toNat == 0x1680 ||
  (0x2000 ≤ c.toNat && c.toNat ≤ 0x200A) || c.toNat == 0x2028 ||
  c.toNat == 0x2029 || c.toNat == 0x202F || c.toNat == 0x205F ||
  c.toNat == 0x3000

/-- Accumulator-passing splitter over the character list: `acc` holds the
(reversed) characters of the token currently being read. -/
def splitWsAux : List Char → List Char → List (List Char)
  | [], acc => if acc.isEmpty then [] else [acc.reverse]
  | c :: cs, acc =>
    if isRustWhitespace c then
      if acc.isEmpty then splitWsAux cs [] else acc.reverse :: splitWsAux cs []
    else splitWsAux cs (c :: acc)

/-- Rust `str::split_whitespace`, collected into a list of tokens
(`lib.rs` line 131: `params.cmd.split_whitespace().collect()`). -/
def split_whitespace (s : String) : List String :=
  (splitWsAux s.data []).map (fun l => String.mk l)

/-! ## The allow-list policy (`lib.rs` lines 122–158) -/

/-- The forbidden shell metacharacters checked on line 125 of `lib.rs`. -/
def FORBIDDEN_CHARS : String := "&;|<>()`$"

/-- Line 125: `params.cmd.chars().any(|c| "&;|<>()`$".contains(c))`. -/
def containsForbidden (cmd : String) : Bool :=
  cmd.data.any (fun c => FORBIDDEN_CHARS.data.contains c)

/-- Line 123: `const UNAUTHORIZED_MESSAGE: &str = "[unauthorized]";`. -/
def UNAUTHORIZED_MESSAGE : String := "[unauthorized]"

/-- Line 133: the payload of the empty-command error event. -/
def EMPTY_COMMAND_MESSAGE : String := "Empty command received."

/-- Lines 148–151: the fixed subcommand allow-list. -/
def allowed_subcommands : List String :=
  ["serve", "create", "show", "run", "stop", "pull",
   "push", "list", "ps", "cp", "rm", "help", "--version", "--help"]

/-- Line 164: the authorized program path on non-Windows targets
(on Windows it is the bare name `ollama`; the choice does not affect
any claim, all of which speak of a single fixed authorized program). -/
def program : String := "/usr/local/bin/ollama"

/-- Outcome of the validation phase of `exec_handler` (lines 125–158),
one constructor per early-`return` branch plus acceptance with the
argument vector `parts[1..]` (the empty vector when only one token). -/
inductive ValidationResult where
  | rejectedForbidden
  | rejectedEmpty
  | rejectedProgram
  | rejectedSubcommand
  | accepted (args : List String)
deriving DecidableEq, Repr

/-- The validation phase of `exec_handler`, translated branch by branch from
lines 125–158 of `lib.rs`. -/
def validate (cmd : String) : ValidationResult :=
  if containsForbidden cmd then .rejectedForbidden
  else
    match split_whitespace cmd with
    | [] => .rejectedEmpty
    | p0 :: rest =>
      if p0 ≠ "ollama" then .rejectedProgram
      else
        match rest with
        | [] => .accepted []
        | sub :: _ =>
          if allowed_subcommands.contains sub then .accepted rest
          else .rejectedSubcommand

/-! ## The execution phase and its event stream (`lib.rs` lines 160–211)

The OS behaviour of the one attempted spawn is an explicit environment:
either the spawn syscall fails with some diagnostic, or a process runs,
delivering an interleaved sequence of stdout/stderr lines (the order the
`tokio::select!` loop happened to observe) followed by the outcome of
`child.wait()`. -/

/-- Outcome of `child.wait().await` (lines 196–203): `Ok(status)` with
`status.code() : Option<i32>` (`None` when killed by a signal), or `Err`. -/
inductive WaitOutcome where
  | ok (code : Option Int)
  | waitErr (msg : String)
deriving DecidableEq, Repr

/-- OS behaviour of the single `command.spawn()` attempt (lines 173–208). -/
inductive SpawnEnv where
  | spawnErr (msg : String)
  | spawned (lines : List String) (wait : WaitOutcome)
deriving DecidableEq, Repr

/-- One SSE event as built in `exec_handler`: a default (unnamed) data event
carrying an output line, or a named `error` / `done` event. -/
inductive ExecEvent where
  | data (payload : String)
  | error (payload : String)
  | done (payload : String)
deriving DecidableEq, Repr

/-- A terminal event of the stream: a `done` or `error` event, as opposed to
a default data event. -/
def ExecEvent.isTerminal : ExecEvent → Bool
  | .data _ => false
  | .error _ => true
  | .done _ => true

/-- A one-character string holding the ASCII single-quote. -/
def SQ : String := String.mk [Char.ofNat 39]

/-- Rust `{:?}` (Debug) rendering of an `Option<i32>` exit code. -/
def rustDebugOptInt : Option Int → String
  | none => "None"
  | some n => "Some(" ++ toString n ++ ")"

/-- Line 198: `format!("[COMMAND_FINISHED code={:?}]", status.code())`. -/
def doneMessage (code : Option Int) : String :=
  "[COMMAND_FINISHED code=" ++ rustDebugOptInt code ++ "]"

/-- Line 201: the wait-failure error payload. -/
def waitErrMessage (e : String) : String :=
  "[ERROR: Failed to wait for command. Error: " ++ e ++ "]"

/-- Line 206: the spawn-failure error payload (quotes the program path). -/
def spawnErrMessage (e : String) : String :=
  "[ERROR: Failed to spawn command " ++ SQ ++ program ++ SQ ++
    ". Error: " ++ e ++ "]"

/-- The full event stream yielded by the `async_stream::stream!` block of
`exec_handler` (lines 122–209) for a given command string and OS behaviour:
each validation rejection yields a single error event and returns; an
accepted command spawns, then either a spawn-failure error event, or the
data events for the observed lines followed by the single terminal event
from the `child.wait()` match. -/
def exec_handler (cmd : String) (env : SpawnEnv) : List ExecEvent :=
  match validate cmd with
  | .rejectedForbidden => [.error UNAUTHORIZED_MESSAGE]
  | .rejectedEmpty => [.error EMPTY_COMMAND_MESSAGE]
  | .rejectedProgram => [.error UNAUTHORIZED_MESSAGE]
  | .rejectedSubcommand => [.error UNAUTHORIZED_MESSAGE]
  | .accepted _ =>
    match env with
    | .spawnErr e => [.error (spawnErrMessage e)]
    | .spawned ls w =>
      ls.map ExecEvent.data ++
        match w with
        | .ok code => [.done (doneMessage code)]
        | .waitErr e => [.error (waitErrMessage e)]

/-- The one process-spawn attempt `exec_handler` makes: `none` when
validation rejects the command before line 173 is reached, otherwise the
authorized program together with the literal argument vector handed to
`TokioCommand::args` (lines 168–169) — no shell is ever involved, the
tokens are passed as an argv array. -/
def spawnRecord (cmd : String) : Option (String × List String) :=
  match validate cmd with
  | .accepted args => some (program, args)
  | _ => none

/-! ## Configuration store and reverse proxy (`lib.rs` lines 36–60, 214–276) -/

/-- `AppSettings` (lines 36–38), with the `Mutex` dropped: the lock is held
only for the copy/assignment, so each command is a pure state transition. -/
structure AppSettings where
  ollama_url : Option String
deriving DecidableEq, Repr

/-- `set_ollama_url` (lines 40–49): replaces the stored value. -/
def set_ollama_url (new_url : Option String) (settings : AppSettings) :
    AppSettings :=
  { settings with ollama_url := new_url }

/-- `get_ollama_url` (lines 51–60): clones and returns the stored value. -/
def get_ollama_url (settings : AppSettings) : Option String :=
  settings.ollama_url

/-- Line 232: the fixed default upstream address used when none is stored. -/
def DEFAULT_UPSTREAM : String := "http://127.0.0.1:11434"

/-- Lines 221–238: the target URL,
`format!("{}{}?{}", base_url, path, query)` where `base_url` is the stored
address with `unwrap_or` the default, and `query` is
`uri.query().unwrap_or("")`. -/
def target_url (stored : Option String) (path : String)
    (query : Option String) : String :=
  (stored.getD DEFAULT_UPSTREAM) ++ path ++ "?" ++ query.getD ""

/-- The upstream response observed by the proxy: status, headers and the
byte stream, all of which are forwarded verbatim (lines 257–269). -/
structure UpstreamResponse where
  status : Nat
  headers : List (String × String)
  bodyChunks : List (List Nat)
deriving DecidableEq, Repr

/-- One outbound request as assembled on lines 250–254. -/
structure ProxyRequest where
  method : String
  url : String
  headers : List (String × String)
  body : List Nat
deriving DecidableEq, Repr

/-- Result of one `proxy_handler` invocation: the upstream requests it sent
(to observe absence of calls and of retries) and the response to the caller
— `Except.error s` is the handler returning the bare status code `s`. -/
structure ProxyOutcome where
  sentRequests : List ProxyRequest
  result : Except Nat UpstreamResponse
deriving Repr

/-- `StatusCode::INTERNAL_SERVER_ERROR` (line 246). -/
def INTERNAL_SERVER_ERROR : Nat := 500

/-- `StatusCode::BAD_GATEWAY` (line 273). -/
def BAD_GATEWAY : Nat := 502

/-- `proxy_handler` (lines 214–276). The inbound body collection
(`body.collect().await`, line 242) and the upstream send (line 256) are
environment arguments: `bodyResult` is the collected inbound bytes or a
collection failure, and `upstream` answers the one request it is sent. -/
def proxy_handler (stored : Option String) (method : String)
    (headers : List (String × String)) (path : String) (query : Option String)
    (bodyResult : Except String (List Nat))
    (upstream : ProxyRequest → Except String UpstreamResponse) : ProxyOutcome :=
  let t := target_url stored path query
  match bodyResult with
  | .error _ => ⟨[], .error INTERNAL_SERVER_ERROR⟩
  | .ok bytes =>
    let req : ProxyRequest := ⟨method, t, headers, bytes⟩
    match upstream req with
    | .ok resp => ⟨[req], .ok resp⟩
    | .error _ => ⟨[req], .error BAD_GATEWAY⟩

/-! ## The server prober (`lib.rs` lines 62–102) -/

/-- Network behaviour of one probe request: an HTTP response with some
status arriving within the timeout, or any failure (timeout elapsed,
connection refused, DNS error, ...) — `reqwest` surfaces all of those as
the `Err` branch on line 84. -/
inductive ProbeOutcome where
  | response (status : Nat)
  | failure
deriving DecidableEq, Repr

/-- `reqwest::StatusCode::is_success`: a 2xx status. -/
def is_success (status : Nat) : Bool := 200 ≤ status && status < 300

/-- Line 75: the per-probe timeout, 2500 milliseconds. -/
def PROBE_TIMEOUT_MS : Nat := 2500

/-- Line 72: `format!("{}/v1/models", url)`. -/
def check_url (url : String) : String := url ++ "/v1/models"

/-- The body of one spawned probe task (lines 74–89): `Some(url)` exactly
when the request to `check_url url` got a 2xx response within the timeout,
`None` on any other status or error. `env` maps each probed URL to what the
network did. -/
def probeTask (env : String → ProbeOutcome) (url : String) : Option String :=
  match env (check_url url) with
  | .response s => if is_success s then some url else none
  | .failure => none

/-- `check_ollama_servers` (lines 62–102): one task per input URL,
`join_all` collects the task results in input order, and
`filter_map(|res| res.ok().flatten())` keeps the successful URLs
(task join errors do not occur in this model). -/
def check_ollama_servers (urls : List String)
    (env : String → ProbeOutcome) : List String :=
  ((urls.map (probeTask env)).filterMap id)

/-- A concrete network environment used to instantiate probe results:
the server behind `http://a` answers 200 on its models path, everything
else fails. -/
def probeEnvSample : String → ProbeOutcome :=
  fun u => if u = "http://a/v1/models" then .response 200 else .failure

/-! ## Helper lemmas -/

theorem splitWsAux_eq_nil {l acc : List Char} (h : splitWsAux l acc = []) :
    acc = [] ∧ ∀ c ∈ l, isRustWhitespace c = true := by
  induction l generalizing acc with
  | nil =>
    unfold splitWsAux at h
    by_cases hacc : acc.isEmpty
    · exact ⟨by simpa using hacc, by simp⟩
    · simp [hacc] at h
  | cons c cs ih =>
    unfold splitWsAux at h
    by_cases hw : isRustWhitespace c
    · simp only [hw, if_true] at h
      by_cases hacc : acc.isEmpty
      · simp only [hacc, if_true] at h
        obtain ⟨-, hall⟩ := ih h
        refine ⟨by simpa using hacc, ?_⟩
        intro d hd
        rcases List.mem_cons.mp hd with rfl | hd
        · exact hw
        · exact hall d hd
      · simp [hacc] at h
    · simp only [hw, if_false] at h
      obtain ⟨habs, -⟩ := ih h
      exact absurd habs (by simp)

theorem split_whitespace_eq_nil {cmd : String}
    (h : split_whitespace cmd = []) :
    ∀ c ∈ cmd.data, isRustWhitespace c = true := by
  unfold split_whitespace at h
  rw [List.map_eq_nil_iff] at h
  exact (splitWsAux_eq_nil h).2

theorem containsForbidden_eq_false_of_ws {cmd : String}
    (h : ∀ c ∈ cmd.data, isRustWhitespace c = true) :
    containsForbidden cmd = false := by
  have hforb : ∀ c ∈ FORBIDDEN_CHARS.data, isRustWhitespace c = false := by
    decide
  unfold containsForbidden
  rw [List.any_eq_false]
  intro c hc
  simp only [Bool.not_eq_true]
  by_cases hm : c ∈ FORBIDDEN_CHARS.data
  · have := hforb c hm
    rw [h c hc] at this
    exact absurd this (by simp)
  · simpa using hm

theorem probeTask_eq_some {env : String → ProbeOutcome} {u v : String}
    (h : probeTask env u = some v) : v = u := by
  unfold probeTask at h
  split at h
  · split at h
    · exact (Option.some_inj.mp h).symm
    · exact absurd h (by simp)
  · exact absurd h (by simp)

theorem check_ollama_servers_eq_filter (urls : List String)
    (env : String → ProbeOutcome) :
    check_ollama_servers urls env =
      urls.filter (fun u => (probeTask env u).isSome) := by
  induction urls with
  | nil => rfl
  | cons u us ih =>
    unfold check_ollama_servers at ih ⊢
    simp only [List.map_cons, List.filterMap_cons, List.filter_cons]
    cases hpt : probeTask env u with
    | none => simpa [hpt] using ih
    | some v =>
      have hv : v = u := probeTask_eq_some hpt
      subst hv
      simpa [hpt] using ih

/-! ## Claim theorems -/

/-- Claim C1: for every command string submitted to the execution endpoint
that contains at least one of the forbidden characters, the handler emits
exactly one error event whose payload is the fixed opaque
authorization-failure token, emits no other events, and spawns no
process. -/
theorem exec_forbidden_single_error (cmd : String) (env : SpawnEnv)
    (h : ∃ c ∈ cmd.data, c ∈ FORBIDDEN_CHARS.data) :
    exec_handler cmd env = [.error UNAUTHORIZED_MESSAGE] ∧
    spawnRecord cmd = none := by
  have hc : containsForbidden cmd = true := by
    obtain ⟨c, hcm, hf⟩ := h
    unfold containsForbidden
    rw [List.any_eq_true]
    exact ⟨c, hcm, by simpa using hf⟩
  constructor <;> simp [exec_handler, spawnRecord, validate, hc]

/-- Witness for C1 at the concrete command string containing an ampersand. -/
theorem exec_forbidden_single_error_w :
    exec_handler "echo hi & reboot" (.spawned ["x"] (.ok (some 0))) =
      [.error UNAUTHORIZED_MESSAGE] ∧
    spawnRecord "echo hi & reboot" = none :=
  exec_forbidden_single_error "echo hi & reboot"
    (.spawned ["x"] (.ok (some 0))) (by decide)

/-- Claim C2 (amended): for every command string that contains no forbidden
character and whose first whitespace token is the authorized program name,
with any second token in the fixed subcommand allow-list, exactly one
process of the authorized program is spawned with argument vector equal to
the list of tokens after the first, passed as a literal argv array.
The no-forbidden-character hypothesis is required: see the
counterexample. -/
theorem exec_accepted_spawns_argv (cmd : String) (rest : List String)
    (hforb : containsForbidden cmd = false)
    (htok : split_whitespace cmd = "ollama" :: rest)
    (hsub : rest = [] ∨
      ∃ sub tl, rest = sub :: tl ∧ sub ∈ allowed_subcommands) :
    validate cmd = .accepted rest ∧
    spawnRecord cmd = some (program, rest) ∧
    rest = (split_whitespace cmd).tail := by
  have hv : validate cmd = .accepted rest := by
    rcases hsub with rfl | ⟨sub, tl, rfl, hmem⟩
    · simp [validate, hforb, htok]
    · simp [validate, hforb, htok, hmem]
  exact ⟨hv, by simp [spawnRecord, hv], by simp [htok]⟩

/-- Witness for C2 at a concrete three-token command. -/
theorem exec_accepted_spawns_argv_w :
    validate "ollama run llama3 --verbose" =
      .accepted ["run", "llama3", "--verbose"] ∧
    spawnRecord "ollama run llama3 --verbose" =
      some (program, ["run", "llama3", "--verbose"]) ∧
    ["run", "llama3", "--verbose"] =
      (split_whitespace "ollama run llama3 --verbose").tail :=
  exec_accepted_spawns_argv "ollama run llama3 --verbose"
    ["run", "llama3", "--verbose"] (by decide) (by decide)
    (.inr ⟨"run", ["llama3", "--verbose"], rfl, by decide⟩)

/-- Counterexample to C2 as stated: the command below has first token
`ollama` and allow-listed second token `run`, yet it is rejected and no
process is spawned, because a later token contains the forbidden character
`$` — so the token conditions of the claim alone do not imply a spawn. -/
theorem exec_token_validation_insufficient_cex :
    split_whitespace "ollama run $x" = ["ollama", "run", "$x"] ∧
    ("run" : String) ∈ allowed_subcommands ∧
    spawnRecord "ollama run $x" = none ∧
    exec_handler "ollama run $x" (.spawned [] (.ok (some 0))) =
      [.error UNAUTHORIZED_MESSAGE] := by decide

/-- Claim C3: a command rejected for a forbidden character and a command
rejected for a wrong program name or disallowed subcommand produce
identical error-event payloads (the same single-event stream), so a caller
cannot tell which validation check failed. -/
theorem exec_rejections_indistinguishable (c1 c2 : String)
    (e1 e2 : SpawnEnv)
    (h1 : validate c1 = .rejectedForbidden)
    (h2 : validate c2 = .rejectedProgram ∨
          validate c2 = .rejectedSubcommand) :
    exec_handler c1 e1 = [.error UNAUTHORIZED_MESSAGE] ∧
    exec_handler c2 e2 = [.error UNAUTHORIZED_MESSAGE] ∧
    exec_handler c1 e1 = exec_handler c2 e2 := by
  have g1 : exec_handler c1 e1 = [.error UNAUTHORIZED_MESSAGE] := by
    simp [exec_handler, h1]
  have g2 : exec_handler c2 e2 = [.error UNAUTHORIZED_MESSAGE] := by
    rcases h2 with h2 | h2 <;> simp [exec_handler, h2]
  exact ⟨g1, g2, g1.trans g2.symm⟩

/-- Witness for C3: a metacharacter rejection is indistinguishable both
from a wrong-program rejection and from a disallowed-subcommand
rejection. -/
theorem exec_rejections_indistinguishable_w :
    (exec_handler "nc -l&" (.spawnErr "a") = [.error UNAUTHORIZED_MESSAGE] ∧
     exec_handler "rm -rf" (.spawnErr "b") = [.error UNAUTHORIZED_MESSAGE] ∧
     exec_handler "nc -l&" (.spawnErr "a") =
       exec_handler "rm -rf" (.spawnErr "b")) ∧
    exec_handler "nc -l&" (.spawnErr "a") =
      exec_handler "ollama bogus" (.spawned [] (.ok none)) :=
  ⟨exec_rejections_indistinguishable "nc -l&" "rm -rf" (.spawnErr "a")
      (.spawnErr "b") (by decide) (.inl (by decide)),
   (exec_rejections_indistinguishable "nc -l&" "ollama bogus" (.spawnErr "a")
      (.spawned [] (.ok none)) (by decide) (.inr (by decide))).2.2⟩

/-- Claim C4: every command-execution event stream ends in exactly one
terminal (done or error) event with only data events before it; on spawn
failure the stream is a single error event with no data or done events,
and on wait failure a single error event stands in place of the done
event. -/
theorem exec_stream_single_terminal (cmd : String) (env : SpawnEnv) :
    (∃ pre t, exec_handler cmd env = pre ++ [t] ∧ t.isTerminal = true ∧
        ∀ e ∈ pre, e.isTerminal = false) ∧
    (∀ args e, validate cmd = .accepted args → env = .spawnErr e →
        exec_handler cmd env = [.error (spawnErrMessage e)]) ∧
    (∀ args ls e, validate cmd = .accepted args →
        env = .spawned ls (.waitErr e) →
        exec_handler cmd env =
          ls.map ExecEvent.data ++ [.error (waitErrMessage e)]) := by
  refine ⟨?_, ?_, ?_⟩
  · have hdata : ∀ (ls : List String) (e : ExecEvent),
        e ∈ ls.map ExecEvent.data → e.isTerminal = false := by
      intro ls e he
      obtain ⟨s, -, rfl⟩ := List.mem_map.mp he
      rfl
    unfold exec_handler
    cases hv : validate cmd with
    | accepted args =>
      cases env with
      | spawnErr e => exact ⟨[], .error (spawnErrMessage e), rfl, rfl, by simp⟩
      | spawned ls w =>
        cases w with
        | ok code =>
          exact ⟨ls.map ExecEvent.data, .done (doneMessage code), rfl, rfl,
            hdata ls⟩
        | waitErr e =>
          exact ⟨ls.map ExecEvent.data, .error (waitErrMessage e), rfl, rfl,
            hdata ls⟩
    | rejectedForbidden => exact ⟨[], .error UNAUTHORIZED_MESSAGE, rfl, rfl, by simp⟩
    | rejectedEmpty => exact ⟨[], .error EMPTY_COMMAND_MESSAGE, rfl, rfl, by simp⟩
    | rejectedProgram => exact ⟨[], .error UNAUTHORIZED_MESSAGE, rfl, rfl, by simp⟩
    | rejectedSubcommand => exact ⟨[], .error UNAUTHORIZED_MESSAGE, rfl, rfl, by simp⟩
  · rintro args e hv rfl
    simp [exec_handler, hv]
  · rintro args ls e hv rfl
    simp [exec_handler, hv]

/-- Witness for C4: concrete spawn-failure and wait-failure streams. -/
theorem exec_stream_single_terminal_w :
    exec_handler "ollama ps" (.spawnErr "denied") =
      [.error (spawnErrMessage "denied")] ∧
    exec_handler "ollama ps" (.spawned ["up"] (.waitErr "gone")) =
      [ExecEvent.data "up", .error (waitErrMessage "gone")] := by
  constructor
  · exact (exec_stream_single_terminal "ollama ps" (.spawnErr "denied")).2.1
      ["ps"] "denied" (by decide) rfl
  · have h := (exec_stream_single_terminal "ollama ps"
      (.spawned ["up"] (.waitErr "gone"))).2.2 ["ps"] ["up"] "gone"
      (by decide) rfl
    simpa using h

/-- Claim C5: every upstream request the proxy sends targets the stored
upstream address, or the fixed default when none is stored, concatenated
with the inbound path and query string; after setting an address the same
request targets that address as its base. -/
theorem proxy_targets_stored_or_default (stored : Option String)
    (method path : String) (headers : List (String × String))
    (query : Option String) (bodyResult : Except String (List Nat))
    (upstream : ProxyRequest → Except String UpstreamResponse) :
    (∀ r ∈ (proxy_handler stored method headers path query bodyResult
        upstream).sentRequests, r.url = target_url stored path query) ∧
    target_url none path query =
      DEFAULT_UPSTREAM ++ path ++ "?" ++ query.getD "" ∧
    (∀ addr settings,
      target_url (get_ollama_url (set_ollama_url (some addr) settings))
          path query = addr ++ path ++ "?" ++ query.getD "") := by
  refine ⟨?_, rfl, fun addr settings => rfl⟩
  intro r hr
  unfold proxy_handler at hr
  cases bodyResult with
  | error e => simp at hr
  | ok bytes =>
    simp only at hr
    split at hr <;>
    · simp only [List.mem_singleton] at hr
      subst hr
      rfl

/-- Witness for C5 at a concrete stored address, path and query. -/
theorem proxy_targets_stored_or_default_w :
    ("http://h:9/api/tags?q=1" : String) =
      target_url (some "http://h:9") "/api/tags" (some "q=1") :=
  ((proxy_targets_stored_or_default (some "http://h:9") "POST" "/api/tags" []
      (some "q=1") (.ok [7]) (fun _ => Except.error "refused")).1
    ⟨"POST", "http://h:9/api/tags?q=1", [], [7]⟩ (by decide)).symm

/-- Claim C6: a body-collection failure yields status 500 with no upstream
request sent; an upstream failure yields the distinct status 502 after the
single request; and no invocation ever sends more than one upstream
request, so nothing is retried. -/
theorem proxy_error_mapping_no_retry (stored : Option String) (method : String)
    (headers : List (String × String)) (path : String)
    (query : Option String) :
    (∀ e upstream,
      proxy_handler stored method headers path query (.error e) upstream =
        ⟨[], .error INTERNAL_SERVER_ERROR⟩) ∧
    (∀ bytes msg,
      proxy_handler stored method headers path query (.ok bytes)
          (fun _ => .error msg) =
        ⟨[⟨method, target_url stored path query, headers, bytes⟩],
          .error BAD_GATEWAY⟩) ∧
    INTERNAL_SERVER_ERROR = 500 ∧ BAD_GATEWAY = 502 ∧
    INTERNAL_SERVER_ERROR ≠ BAD_GATEWAY ∧
    (∀ bodyResult upstream,
      (proxy_handler stored method headers path query bodyResult
          upstream).sentRequests.length ≤ 1) := by
  refine ⟨fun e upstream => rfl, fun bytes msg => rfl, rfl, rfl,
    by decide, ?_⟩
  intro bodyResult upstream
  unfold proxy_handler
  cases bodyResult with
  | error e => simp
  | ok bytes =>
    simp only
    split <;> simp

/-- Claim C7: an address is in the result of the prober exactly when it is
one of the input addresses and its probe request to its models sub-path
came back with a 2xx status; every non-2xx, timed-out or failed probe is
absent, and the result carries no per-address failure detail — it is a
bare list of the successful input addresses. -/
theorem probe_returns_exactly_2xx (urls : List String)
    (env : String → ProbeOutcome) (u : String) :
    u ∈ check_ollama_servers urls env ↔
      u ∈ urls ∧
        ∃ s, env (check_url u) = .response s ∧ is_success s = true := by
  rw [check_ollama_servers_eq_filter, List.mem_filter]
  constructor
  · rintro ⟨hu, hsome⟩
    refine ⟨hu, ?_⟩
    unfold probeTask at hsome
    split at hsome
    · rename_i s hs
      split at hsome
      · exact ⟨s, hs, by assumption⟩
      · exact absurd hsome (by simp)
    · exact absurd hsome (by simp)
  · rintro ⟨hu, s, hs, h2⟩
    exact ⟨hu, by simp [probeTask, hs, h2]⟩

/-- Witness for C7: under the sample network environment the live address
is returned. -/
theorem probe_returns_exactly_2xx_w :
    ("http://a" : String) ∈
      check_ollama_servers ["http://a", "http://b"] probeEnvSample :=
  (probe_returns_exactly_2xx ["http://a", "http://b"] probeEnvSample
      "http://a").mpr ⟨by decide, 200, by decide, by decide⟩

/-- Claim C8 (amended): for every successfully spawned and waited command,
the done-event payload is the literal pattern
`[COMMAND_FINISHED code=D]` where `D` is the Rust Debug rendering of the
optional exit code — `Some(<code>)` when the exit code is known and `None`
when it cannot be determined (signal kill) — rather than the bare code:
see the counterexample. -/
theorem done_payload_debug_format (cmd : String) (args : List String)
    (ls : List String) (code : Option Int)
    (hv : validate cmd = .accepted args) :
    exec_handler cmd (.spawned ls (.ok code)) =
      ls.map ExecEvent.data ++ [.done (doneMessage code)] ∧
    doneMessage code =
      "[COMMAND_FINISHED code=" ++ rustDebugOptInt code ++ "]" ∧
    rustDebugOptInt none = "None" ∧
    (∀ n : Int, rustDebugOptInt (some n) = "Some(" ++ toString n ++ ")") := by
  exact ⟨by simp [exec_handler, hv], rfl, rfl, fun n => rfl⟩

/-- Witness for C8 at a concrete command exiting with code 0. -/
theorem done_payload_debug_format_w :
    exec_handler "ollama list" (.spawned [] (.ok (some 0))) =
      [ExecEvent.done "[COMMAND_FINISHED code=Some(0)]"] := by
  have h := (done_payload_debug_format "ollama list" ["list"] [] (some 0)
    (by decide)).1
  rw [h]; decide

/-- Counterexample to C8 as stated: for a process exiting with code 0 the
done payload renders the exit code as `Some(0)`, not as the bare exit
code `0` that the claim describes. -/
theorem done_payload_literal_cex :
    exec_handler "ollama list" (.spawned [] (.ok (some 0))) =
      [ExecEvent.done "[COMMAND_FINISHED code=Some(0)]"] ∧
    "[COMMAND_FINISHED code=Some(0)]" ≠ "[COMMAND_FINISHED code=0]" := by
  decide

/-- Claim C9: for every command string whose whitespace-split token list is
empty, the handler emits exactly one error event with the distinct
empty-command payload, different from the opaque authorization-failure
token, and spawns no process. -/
theorem exec_empty_command (cmd : String) (env : SpawnEnv)
    (h : split_whitespace cmd = []) :
    exec_handler cmd env = [.error EMPTY_COMMAND_MESSAGE] ∧
    EMPTY_COMMAND_MESSAGE ≠ UNAUTHORIZED_MESSAGE ∧
    spawnRecord cmd = none := by
  have hcf : containsForbidden cmd = false :=
    containsForbidden_eq_false_of_ws (split_whitespace_eq_nil h)
  refine ⟨?_, by decide, ?_⟩ <;>
    simp [exec_handler, spawnRecord, validate, hcf, h]

/-- Witness for C9 at a concrete whitespace-only command string. -/
theorem exec_empty_command_w :
    exec_handler " \t " (.spawnErr "no") = [.error EMPTY_COMMAND_MESSAGE] ∧
    EMPTY_COMMAND_MESSAGE ≠ UNAUTHORIZED_MESSAGE ∧
    spawnRecord " \t " = none :=
  exec_empty_command " \t " (.spawnErr "no") (by decide)

/-- Claim C10: the prober returns exactly the subsequence of its input
consisting of the addresses whose probe succeeded — input order is
preserved, a stronger guarantee than bare set membership. -/
theorem probe_preserves_input_order (urls : List String)
    (env : String → ProbeOutcome) :
    check_ollama_servers urls env =
      urls.filter (fun u => (probeTask env u).isSome) :=
  check_ollama_servers_eq_filter urls env
